import Mathlib

/-!
# Verification of the meta_dashboard collection/aggregation pipeline

Shallow embedding of the repository's data pipeline:

* `src/data_processor.py`   — derived-metric computation, aggregation,
  quartile comparison, trend percentage, sheet-data preparation;
* `src/campaign_tracker.py` — entity/daily aggregation and the
  collect-and-update pipeline;
* `src/meta_api_client.py`  — the rate-limit retry wrapper;
* `src/sheets_manager.py`   — the tabular-sink publish contract.

Conventions. Currency/metric values are modelled as rationals (`ℚ`);
float values that can be non-finite (the efficiency-score normalization
divides by batch quantiles that may be zero) are modelled by `FVal`,
a rational extended with `inf`, `ninf` and `nan`, following IEEE
semantics for the operations the code performs.  `round2` models
Python/numpy round-half-even to two decimals.  Calendar dates are
abstracted as natural-number day indices; strings are Lean `String`s.
-/

namespace MetaDash

/-- Round to the nearest integer, ties to even — the semantics of
Python's builtin `round` and numpy/pandas `round` on exact values. -/
def roundHalfEven (q : ℚ) : ℤ :=
  let f : ℤ := ⌊q⌋
  let r : ℚ := q - (f : ℚ)
  if r < 1/2 then f
  else if 1/2 < r then f + 1
  else if f % 2 = 0 then f else f + 1

/-- Model of pandas `Series.round(2)` / Python `round(x, 2)` on a cell. -/
def round2 (q : ℚ) : ℚ := (roundHalfEven (q * 100) : ℚ) / 100

/-- Arithmetic mean of a column, `Series.mean()` (call sites are nonempty). -/
def colMean (l : List ℚ) : ℚ := l.sum / (l.length : ℚ)

/-- Maximum of a column, `Series.max()` (0 as the out-of-domain default). -/
def colMax : List ℚ → ℚ
  | [] => 0
  | x :: xs => xs.foldl max x

/-- Insert into a sorted list w.r.t. a boolean "comes no later than" test. -/
def insertOrd (le : α → α → Bool) (x : α) : List α → List α
  | [] => [x]
  | y :: ys => if le x y then x :: y :: ys else y :: insertOrd le x ys

/-- Insertion sort.  `pandas.sort_values` only guarantees the ordering
relation on the result (its default quicksort is unstable), which is all
the code and the spec rely on. -/
def isort (le : α → α → Bool) : List α → List α
  | [] => []
  | x :: xs => insertOrd le x (isort le xs)

/-- Linear-interpolation quantile, the default of `Series.quantile`:
with ascending values `v₀ … v_{n-1}` and `h = (n-1)·p`, the result is
`v_⌊h⌋ + (h - ⌊h⌋) · (v_{⌊h⌋+1} - v_⌊h⌋)`. -/
def quantile (l : List ℚ) (p : ℚ) : ℚ :=
  let s := isort (fun a b => decide (a ≤ b)) l
  let n := s.length
  if n = 0 then 0
  else
    let h : ℚ := ((n : ℚ) - 1) * p
    let i : ℕ := (⌊h⌋).toNat
    let g : ℚ := h - (⌊h⌋ : ℚ)
    let a := s.getD i 0
    let b := s.getD (min (i + 1) (n - 1)) 0
    a + g * (b - a)

/-- A float value: finite rational, +∞, −∞ or NaN.  Only the efficiency
score normalization can produce non-finite values; everything else in
the pipeline stays finite. -/
inductive FVal where
  | fin (q : ℚ)
  | inf
  | ninf
  | nan
deriving DecidableEq, Repr

/-- Float division of two finite values, `x / y` in numpy: division by
zero yields ±∞ (or NaN for 0/0). -/
def fdiv (x y : ℚ) : FVal :=
  if y = 0 then
    if 0 < x then .inf else if x < 0 then .ninf else .nan
  else .fin (x / y)

/-- Float subtraction `1 - v` as used in the inverse normalizations. -/
def fsub1 : FVal → FVal
  | .fin q => .fin (1 - q)
  | .inf => .ninf
  | .ninf => .inf
  | .nan => .nan

/-- Float multiplication by a finite constant. -/
def fmulC (c : ℚ) : FVal → FVal
  | .fin q => .fin (c * q)
  | .inf => if 0 < c then .inf else if c < 0 then .ninf else .nan
  | .ninf => if 0 < c then .ninf else if c < 0 then .inf else .nan
  | .nan => .nan

/-- Float addition (cases with two infinities of opposite sign give NaN). -/
def fadd : FVal → FVal → FVal
  | .nan, _ => .nan
  | _, .nan => .nan
  | .fin a, .fin b => .fin (a + b)
  | .fin _, .inf => .inf
  | .fin _, .ninf => .ninf
  | .inf, .fin _ => .inf
  | .ninf, .fin _ => .ninf
  | .inf, .inf => .inf
  | .ninf, .ninf => .ninf
  | .inf, .ninf => .nan
  | .ninf, .inf => .nan

/-- Model of `np.clip(v, 0, 1)`: NaN propagates, infinities saturate. -/
def clip01 : FVal → FVal
  | .fin q => .fin (max 0 (min 1 q))
  | .inf => .fin 1
  | .ninf => .fin 0
  | .nan => .nan

/-- Model of `df.replace([np.inf, -np.inf], 0)` followed by
`df.fillna(0)`: every non-finite value is coerced to 0. -/
def FVal.toRat : FVal → ℚ
  | .fin q => q
  | _ => 0

/-- Is the value finite? -/
def FVal.isFin : FVal → Bool
  | .fin _ => true
  | _ => false

/-- One performance row, the dynamic dict-shaped record of the pipeline
(`PerformanceRow` of the spec plus the four derived-metric columns,
which hold 0 until `calculate_performance_metrics` fills them). -/
structure PRow where
  date : ℕ
  adset_id : String
  adset_name : String
  impressions : ℚ
  reach : ℚ
  spend : ℚ
  ctr : ℚ
  cpm : ℚ
  link_clicks : ℚ
  landing_page_views : ℚ
  cost_per_link_click : ℚ
  cost_per_landing_page_view : ℚ
  reach_rate : ℚ
  efficiency_score : ℚ
deriving DecidableEq, Repr

/-- `np.where(df.link_clicks > 0, df.spend / df.link_clicks, 0)`:
the value selected for a row (DataProcessor.calculate_performance_metrics,
src/data_processor.py line 31). -/
def cplcVal (r : PRow) : ℚ :=
  if 0 < r.link_clicks then r.spend / r.link_clicks else 0

/-- `np.where(df.landing_page_views > 0, df.spend / df.landing_page_views, 0)`
(src/data_processor.py line 35). -/
def cplvVal (r : PRow) : ℚ :=
  if 0 < r.landing_page_views then r.spend / r.landing_page_views else 0

/-- `np.where(df.impressions > 0, df.reach / df.impressions * 100, 0)`
(src/data_processor.py line 39). -/
def reachRateVal (r : PRow) : ℚ :=
  if 0 < r.impressions then r.reach / r.impressions * 100 else 0

/-- The raw (pre-coercion, pre-rounding) efficiency score of row `r`
within batch `l`: DataProcessor.calculate_efficiency_score
(src/data_processor.py lines 57-76).  The 95th-percentile
normalizations can divide by zero, hence the `FVal` codomain. -/
def effRaw (l : List PRow) (r : PRow) : FVal :=
  let ctrs := l.map (·.ctr)
  let cpms := l.map (·.cpm)
  let cpcs := l.map cplcVal
  let max_ctr : ℚ := if 0 < colMax ctrs then quantile ctrs (95/100) else 1
  let normalized_ctr := clip01 (fdiv r.ctr max_ctr)
  let normalized_cpm :=
    if 0 < colMax cpms then clip01 (fsub1 (fdiv r.cpm (quantile cpms (95/100))))
    else .fin 0
  let normalized_cpc :=
    if 0 < colMax cpcs then clip01 (fsub1 (fdiv (cplcVal r) (quantile cpcs (95/100))))
    else .fin 0
  fmulC 100 (fadd (fadd (fmulC (2/5) normalized_ctr) (fmulC (3/10) normalized_cpm))
    (fmulC (3/10) normalized_cpc))

/-- The output row of DataProcessor.calculate_performance_metrics for
input row `r` of batch `l`: the four derived columns are computed, every
non-finite result is coerced to 0 (lines 46-47), and the six numeric
columns — `ctr` and `cpm` included — are rounded to 2 decimals
(lines 50-53). -/
def metricsRow (l : List PRow) (r : PRow) : PRow :=
  { r with
    ctr := round2 r.ctr
    cpm := round2 r.cpm
    cost_per_link_click := round2 (cplcVal r)
    cost_per_landing_page_view := round2 (cplvVal r)
    reach_rate := round2 (reachRateVal r)
    efficiency_score := round2 ((effRaw l r).toRat) }

/-- DataProcessor.calculate_performance_metrics (src/data_processor.py
lines 20-55): the empty frame is returned unchanged; otherwise each row
is extended with the derived metrics. -/
def calculate_performance_metrics (l : List PRow) : List PRow :=
  if l = [] then l else l.map (metricsRow l)

/-! ## Group-by aggregation (CampaignTracker, src/campaign_tracker.py) -/

/-- The group-by key of a row for the entity aggregation:
the `(adset_id, adset_name)` pair. -/
def adsetKey (r : PRow) : String × String := (r.adset_id, r.adset_name)

/-- The distinct `(adset_id, adset_name)` pairs of a frame (the index of
`df.groupby(['adset_id', 'adset_name'])`). -/
def adsetKeys (l : List PRow) : List (String × String) := (l.map adsetKey).dedup

/-- The rows of a frame belonging to one `(adset_id, adset_name)` group. -/
def adsetGroup (l : List PRow) (k : String × String) : List PRow :=
  l.filter (fun r => decide (adsetKey r = k))

/-- One row of CampaignTracker._aggregate_adset_data output
(src/campaign_tracker.py lines 142-154): volume metrics are summed over
the group, `ctr`/`cpm` are averaged and then rounded to 2 decimals. -/
structure AdsetAgg where
  adset_id : String
  adset_name : String
  spend : ℚ
  impressions : ℚ
  reach : ℚ
  link_clicks : ℚ
  landing_page_views : ℚ
  ctr : ℚ
  cpm : ℚ
deriving DecidableEq, Repr

/-- Aggregate one `(adset_id, adset_name)` group of `l`. -/
def adsetAggRow (l : List PRow) (k : String × String) : AdsetAgg :=
  let g := adsetGroup l k
  { adset_id := k.1
    adset_name := k.2
    spend := (g.map (·.spend)).sum
    impressions := (g.map (·.impressions)).sum
    reach := (g.map (·.reach)).sum
    link_clicks := (g.map (·.link_clicks)).sum
    landing_page_views := (g.map (·.landing_page_views)).sum
    ctr := round2 (colMean (g.map (·.ctr)))
    cpm := round2 (colMean (g.map (·.cpm))) }

/-- CampaignTracker._aggregate_adset_data (src/campaign_tracker.py
lines 138-163): group by `(adset_id, adset_name)`, sum/mean-aggregate,
round `ctr`/`cpm`, then `sort_values('spend', ascending=False)`. -/
def aggregate_adset_data (l : List PRow) : List AdsetAgg :=
  isort (fun a b => decide (b.spend ≤ a.spend))
    ((adsetKeys l).map (adsetAggRow l))

/-- One row of CampaignTracker._aggregate_daily_data output
(src/campaign_tracker.py lines 169-181). -/
structure DailyAgg where
  date : ℕ
  spend : ℚ
  impressions : ℚ
  reach : ℚ
  link_clicks : ℚ
  landing_page_views : ℚ
  ctr : ℚ
  cpm : ℚ
deriving DecidableEq, Repr

/-- The distinct calendar dates of a frame (the index of
`df.groupby('date')`). -/
def dateKeys (l : List PRow) : List ℕ := (l.map (·.date)).dedup

/-- The rows of a frame belonging to one calendar date. -/
def dateGroup (l : List PRow) (d : ℕ) : List PRow :=
  l.filter (fun r => decide (r.date = d))

/-- Aggregate one calendar-date group of `l`. -/
def dailyAggRow (l : List PRow) (d : ℕ) : DailyAgg :=
  let g := dateGroup l d
  { date := d
    spend := (g.map (·.spend)).sum
    impressions := (g.map (·.impressions)).sum
    reach := (g.map (·.reach)).sum
    link_clicks := (g.map (·.link_clicks)).sum
    landing_page_views := (g.map (·.landing_page_views)).sum
    ctr := round2 (colMean (g.map (·.ctr)))
    cpm := round2 (colMean (g.map (·.cpm))) }

/-- CampaignTracker._aggregate_daily_data (src/campaign_tracker.py
lines 165-190): group by date, sum/mean-aggregate, round `ctr`/`cpm`,
then `sort_values('date')` ascending. -/
def aggregate_daily_data (l : List PRow) : List DailyAgg :=
  isort (fun a b => decide (a.date ≤ b.date))
    ((dateKeys l).map (dailyAggRow l))

/-! ## Ad-set comparison (DataProcessor.compare_adsets_performance) -/

/-- One group's row of the group-by of
DataProcessor.compare_adsets_performance (src/data_processor.py
lines 89-98): like the entity aggregation but additionally
mean-aggregating `efficiency_score`.  The frame has no `date` column
and no derived ratio columns yet; those `PRow` fields are set to 0 and
are overwritten (never read) downstream. -/
def adsetSummaryRawRow (l : List PRow) (k : String × String) : PRow :=
  let g := adsetGroup l k
  { date := 0
    adset_id := k.1
    adset_name := k.2
    impressions := (g.map (·.impressions)).sum
    reach := (g.map (·.reach)).sum
    spend := (g.map (·.spend)).sum
    ctr := colMean (g.map (·.ctr))
    cpm := colMean (g.map (·.cpm))
    link_clicks := (g.map (·.link_clicks)).sum
    landing_page_views := (g.map (·.landing_page_views)).sum
    cost_per_link_click := 0
    cost_per_landing_page_view := 0
    reach_rate := 0
    efficiency_score := colMean (g.map (·.efficiency_score)) }

/-- The full group-by frame of lines 89-98 of src/data_processor.py. -/
def adsetSummaryRaw (l : List PRow) : List PRow :=
  (adsetKeys l).map (adsetSummaryRawRow l)

/-- Lines 89-104 of src/data_processor.py: group by ad set, re-derive
the metrics on the aggregated rows via
`calculate_performance_metrics`, and rank by efficiency score
descending. -/
def adsetSummaryRanked (l : List PRow) : List PRow :=
  isort (fun a b => decide (b.efficiency_score ≤ a.efficiency_score))
    (calculate_performance_metrics (adsetSummaryRaw l))

/-- `adset_summary.head(max(1, total_adsets // 4))`
(src/data_processor.py line 108). -/
def topPerformers (s : List PRow) : List PRow :=
  s.take (max 1 (s.length / 4))

/-- `adset_summary.tail(max(1, total_adsets // 4))`
(src/data_processor.py line 109). -/
def bottomPerformers (s : List PRow) : List PRow :=
  s.drop (s.length - max 1 (s.length / 4))

/-- String-keyed column access on a summary row, mirroring the columns
actually present in the `adset_summary` frame at line 112 of
src/data_processor.py (group keys, the seven aggregated metrics, and
the four columns added by `calculate_performance_metrics`).  A name
not among them — in particular `cost_per_result` — is a `KeyError`,
modelled as `none`. -/
def colVal (r : PRow) : String → Option ℚ
  | "spend" => some r.spend
  | "impressions" => some r.impressions
  | "reach" => some r.reach
  | "link_clicks" => some r.link_clicks
  | "landing_page_views" => some r.landing_page_views
  | "ctr" => some r.ctr
  | "cpm" => some r.cpm
  | "efficiency_score" => some r.efficiency_score
  | "cost_per_link_click" => some r.cost_per_link_click
  | "cost_per_landing_page_view" => some r.cost_per_landing_page_view
  | "reach_rate" => some r.reach_rate
  | _ => none

/-- Extraction of column `c` of a frame, `frame[c]`: fails
(propagating the `KeyError`) when the column is absent. -/
def colSeries (rs : List PRow) (c : String) : Option (List ℚ) :=
  match rs with
  | [] => some []
  | r :: rest =>
    match colVal r c, colSeries rest c with
    | some v, some vs => some (v :: vs)
    | _, _ => none

/-- `frame[c].mean()`: fails when the column is absent. -/
def meanCol (rs : List PRow) (c : String) : Option ℚ :=
  (colSeries rs c).map colMean

/-- The `performance_gap` dict literal of src/data_processor.py
lines 112-121, with the dict values evaluated in source order; reading
`cost_per_result` from either group raises, modelled as `none`. -/
def performanceGap (top bottom : List PRow) : Option (List (String × ℚ)) := do
  let top_avg_ctr ← meanCol top "ctr"
  let bottom_avg_ctr ← meanCol bottom "ctr"
  let top_avg_cpm ← meanCol top "cpm"
  let bottom_avg_cpm ← meanCol bottom "cpm"
  let top_avg_cost_per_result ← meanCol top "cost_per_result"
  let bottom_avg_cost_per_result ← meanCol bottom "cost_per_result"
  some [("top_avg_ctr", top_avg_ctr), ("bottom_avg_ctr", bottom_avg_ctr),
    ("top_avg_cpm", top_avg_cpm), ("bottom_avg_cpm", bottom_avg_cpm),
    ("top_avg_cost_per_result", top_avg_cost_per_result),
    ("bottom_avg_cost_per_result", bottom_avg_cost_per_result),
    ("ctr_improvement_potential", top_avg_ctr - bottom_avg_ctr),
    ("cpm_improvement_potential", bottom_avg_cpm - top_avg_cpm)]

/-- The successful result shape of DataProcessor.compare_adsets_performance. -/
structure CompareResult where
  adset_rankings : List PRow
  top_performers : List PRow
  bottom_performers : List PRow
  performance_gap : List (String × ℚ)
  total_adsets : ℕ
deriving DecidableEq, Repr

/-- DataProcessor.compare_adsets_performance (src/data_processor.py
lines 82-133).  An empty frame returns `{}` (line 84) and so does the
`except` handler when anything inside raises (lines 131-133); both are
modelled as `none`. -/
def compare_adsets_performance (l : List PRow) : Option CompareResult :=
  if l = [] then none
  else
    let s := adsetSummaryRanked l
    let top := topPerformers s
    let bottom := bottomPerformers s
    match performanceGap top bottom with
    | none => none
    | some gap =>
      some { adset_rankings := s, top_performers := top,
             bottom_performers := bottom, performance_gap := gap,
             total_adsets := s.length }

/-- DataProcessor.calculate_trend_percentage (src/data_processor.py
lines 211-215). -/
def calculate_trend_percentage (old_value new_value : ℚ) : ℚ :=
  if old_value = 0 then
    if 0 < new_value then 100 else 0
  else round2 ((new_value - old_value) / old_value * 100)

/-! ## Rate-limit retry (MetaAPIClient, src/meta_api_client.py) -/

/-- The outcome of one underlying remote call attempt: success, a
`FacebookRequestError` carrying its `_api_error_code`, or any other
exception. -/
inductive ApiResult (α : Type) where
  | ok (v : α)
  | fbErr (code : ℤ)
  | otherErr
deriving DecidableEq, Repr

/-- How `_safe_api_call` terminates when it does not return a value:
re-raising the caught `FacebookRequestError`, re-raising another
exception, or falling through the loop (the terminal `Exception` at
line 62, unreachable because the last iteration always raises). -/
inductive ApiFailure where
  | fbRaised (code : ℤ)
  | otherRaised
  | exhausted
deriving DecidableEq, Repr

/-- MetaAPIClient._handle_rate_limit_error (src/meta_api_client.py
lines 31-44): on error code 17 with retries left it sleeps
`2^retry_count * 60` seconds and reports `True` (retry); otherwise
`False`.  Returns the flag together with the simulated wait. -/
def handle_rate_limit_error (code : ℤ) (retry_count max_retries : ℕ) : Bool × ℕ :=
  if code = 17 then
    if retry_count < max_retries then (true, 2 ^ retry_count * 60)
    else (false, 0)
  else (false, 0)

/-- The `for retry_count in range(max_retries + 1)` loop of
MetaAPIClient._safe_api_call, over the remaining attempt indices.
Returns the result together with the accumulated simulated wait and
the number of underlying calls performed. -/
def safeLoop (f : ℕ → ApiResult α) : List ℕ → Except ApiFailure α × ℕ × ℕ
  | [] => (.error .exhausted, 0, 0)
  | i :: rest =>
    match f i with
    | .ok v => (.ok v, 0, 1)
    | .fbErr c =>
      match handle_rate_limit_error c i 3 with
      | (true, w) =>
        let (res, w2, n) := safeLoop f rest
        (res, w + w2, n + 1)
      | (false, _) => (.error (.fbRaised c), 0, 1)
    | .otherErr => (.error .otherRaised, 0, 1)

/-- MetaAPIClient._safe_api_call (src/meta_api_client.py lines 46-62)
with `max_retries = 3`: up to four attempts, indexed 0..3. -/
def safe_api_call (f : ℕ → ApiResult α) : Except ApiFailure α × ℕ × ℕ :=
  safeLoop f [0, 1, 2, 3]

/-! ## Tabular sink (SheetsManager, src/sheets_manager.py) -/

/-- A spreadsheet cell value: a number, a string, or a missing (NaN)
cell. -/
inductive Cell where
  | num (q : ℚ)
  | str (s : String)
  | na
deriving DecidableEq, Repr

/-- A record of a prepared frame: column name to cell, in column order. -/
abbrev Rec := List (String × Cell)

/-- A frame to publish: column names plus data rows (cells in column
order).  `df.empty` is `rows = []`. -/
structure Df where
  cols : List String
  rows : List (List Cell)
deriving DecidableEq, Repr

/-- The state of the remote spreadsheet: sheet name to cell grid. -/
abbrev Sheets := List (String × List (List Cell))

/-- SheetsManager.get_or_create_worksheet (src/sheets_manager.py
lines 80-98), restricted to the observable contents: an existing sheet
is kept, a missing one is added empty. -/
def get_or_create_worksheet (st : Sheets) (name : String) : Sheets :=
  if (st.map Prod.fst).contains name then st else st ++ [(name, [])]

/-- Replace the grid of a named sheet. -/
def setSheet (st : Sheets) (name : String) (g : List (List Cell)) : Sheets :=
  st.map (fun p => if p.1 = name then (p.1, g) else p)

/-- The per-cell coercion of src/sheets_manager.py lines 126-136:
missing cells become the empty string, numbers become floats, anything
else its string form. -/
def formatCell : Cell → Cell
  | .na => .str ""
  | .num q => .num q
  | .str s => .str s

/-- `worksheet.update(values)` writes a region starting at A1: written
rows replace existing ones, rows beyond the written region survive. -/
def writeRegion (old new : List (List Cell)) : List (List Cell) :=
  new ++ old.drop new.length

/-- SheetsManager.upload_dataframe_to_sheet (src/sheets_manager.py
lines 100-150): an empty frame is reported as failure before any
remote access; otherwise the sheet is opened-or-created, optionally
cleared, and the (optionally header-prefixed) formatted rows written. -/
def upload_dataframe_to_sheet (df : Df) (sheet_name : String)
    (include_header clear_existing : Bool) (st : Sheets) : Bool × Sheets :=
  if df.rows = [] then (false, st)
  else
    let st1 := get_or_create_worksheet st sheet_name
    let old := if clear_existing then [] else ((st1.lookup sheet_name).getD [])
    let values := (if include_header then [df.cols.map Cell.str] else []) ++ df.rows
    let formatted := values.map (·.map formatCell)
    (true, setSheet st1 sheet_name (writeRegion old formatted))

/-- SheetsManager.upload_campaign_data (src/sheets_manager.py
lines 254-282): upload each frame present in `sheets_data` to its
sheet, collecting a per-sheet success map; one sheet's outcome does not
gate the other's upload. -/
def upload_campaign_data (adset daily : Option Df) (st : Sheets) :
    List (String × Bool) × Sheets :=
  let (r1, st1) := match adset with
    | some df =>
      let (b, st2) := upload_dataframe_to_sheet df "광고 세트별 데이터" true true st
      ([("adset_performance", b)], st2)
    | none => ([], st)
  let (r2, st3) := match daily with
    | some df =>
      let (b, st4) := upload_dataframe_to_sheet df "일별 데이터" true true st1
      ([("daily_trend", b)], st4)
    | none => ([], st1)
  (r1 ++ r2, st3)

/-! ## Sheet-data preparation (DataProcessor.prepare_sheets_data_for_campaign) -/

/-- Abstraction of `pd.to_datetime(d).strftime('%Y-%m-%d')` on the
day-index model of dates. -/
def dateStr (d : ℕ) : String := toString d

/-- An aggregated ad-set row as the dict-shaped record of the frame at
line 309 of src/data_processor.py, after the `updated_at` column is
appended. -/
def adsetRec (now : String) (r : AdsetAgg) : Rec :=
  [("adset_id", .str r.adset_id), ("adset_name", .str r.adset_name),
   ("spend", .num r.spend), ("impressions", .num r.impressions),
   ("reach", .num r.reach), ("link_clicks", .num r.link_clicks),
   ("landing_page_views", .num r.landing_page_views),
   ("ctr", .num r.ctr), ("cpm", .num r.cpm), ("updated_at", .str now)]

/-- An aggregated daily row as a dict-shaped record, with the date
column reformatted (line 344 of src/data_processor.py). -/
def dailyRec (r : DailyAgg) : Rec :=
  [("date", .str (dateStr r.date)), ("spend", .num r.spend),
   ("impressions", .num r.impressions), ("reach", .num r.reach),
   ("link_clicks", .num r.link_clicks),
   ("landing_page_views", .num r.landing_page_views),
   ("ctr", .num r.ctr), ("cpm", .num r.cpm)]

/-- Column selection `df[available_columns]`: keep the requested
columns that exist, in requested order. -/
def selectCols (wanted : List String) (recs : List Rec) : List Rec :=
  recs.map (fun rec => wanted.filterMap (fun c =>
    (rec.lookup c).map (fun v => (c, v))))

/-- The `ctr = ctr / 100` mutation (lines 333-334 and 367-368 of
src/data_processor.py). -/
def divCtrBy100 (recs : List Rec) : List Rec :=
  recs.map (fun rec => rec.map (fun p =>
    if p.1 = "ctr" then
      (p.1, match p.2 with | .num q => .num (q / 100) | v => v)
    else p))

/-- `rename(columns=mapping)`: translate a column name via an
association list, keeping unknown names. -/
def renameCols (mapping : List (String × String)) (cols : List String) :
    List String :=
  cols.map (fun c => (mapping.lookup c).getD c)

/-- Turn selected records into a `Df` with the given (renamed) header. -/
def recsToDf (mapping : List (String × String)) (wanted : List String)
    (recs : List Rec) : Df :=
  { cols := renameCols mapping wanted
    rows := recs.map (fun rec => rec.map Prod.snd) }

/-- The ad-set column order of line 312 of src/data_processor.py. -/
def adsetWanted : List String :=
  ["adset_name", "spend", "impressions", "reach", "link_clicks",
   "landing_page_views", "ctr", "cpm", "updated_at"]

/-- The Korean header mapping of lines 320-330 of src/data_processor.py. -/
def adsetMapping : List (String × String) :=
  [("adset_name", "광고세트명"), ("spend", "지출금액"), ("impressions", "노출"),
   ("reach", "도달"), ("link_clicks", "링크클릭"),
   ("landing_page_views", "랜딩페이지조회"), ("ctr", "CTR(%)"), ("cpm", "CPM"),
   ("updated_at", "업데이트 일시")]

/-- The daily column order of line 347 of src/data_processor.py. -/
def dailyWanted : List String :=
  ["date", "spend", "impressions", "reach", "link_clicks",
   "landing_page_views", "ctr", "cpm"]

/-- The Korean header mapping of lines 355-364 of src/data_processor.py. -/
def dailyMapping : List (String × String) :=
  [("date", "날짜"), ("spend", "지출금액"), ("impressions", "노출"),
   ("reach", "도달"), ("link_clicks", "링크클릭"),
   ("landing_page_views", "랜딩페이지조회"), ("ctr", "CTR(%)"), ("cpm", "CPM")]

/-- DataProcessor.prepare_sheets_data_for_campaign (src/data_processor.py
lines 300-376): each non-empty aggregate becomes a publishable frame —
columns selected and renamed, `ctr` divided by 100, `updated_at` (ad-set
frame) and the formatted date (daily frame) added.  An empty aggregate
contributes no frame. -/
def prepare_sheets_data_for_campaign (adset_data : List AdsetAgg)
    (daily_data : List DailyAgg) (now : String) : Option Df × Option Df :=
  let adsetDf :=
    if adset_data = [] then none
    else some (recsToDf adsetMapping adsetWanted
      (divCtrBy100 (selectCols adsetWanted (adset_data.map (adsetRec now)))))
  let dailyDf :=
    if daily_data = [] then none
    else some (recsToDf dailyMapping dailyWanted
      (divCtrBy100 (selectCols dailyWanted (daily_data.map dailyRec))))
  (adsetDf, dailyDf)

/-! ## The collection run (CampaignTracker.collect_and_update_data) -/

/-- The observable trace of one collection run: how many insight
fetches and per-sheet publish calls were made, which warnings fired,
and the per-sheet success map. -/
structure CollectTrace where
  fetchCalls : ℕ
  publishCalls : ℕ
  warnedNoAdsets : Bool
  warnedNoData : Bool
  uploadResults : List (String × Bool)
deriving DecidableEq, Repr

/-- CampaignTracker.collect_and_update_data (src/campaign_tracker.py
lines 86-136) over an abstract metrics source: an empty ad-set list
short-circuits with a warning before any fetch; an empty insight frame
short-circuits after the single fetch; otherwise derived metrics are
computed, both aggregates built, the frames prepared and published.
The surrounding `try/except` makes the run total. -/
def collect_and_update_data (adsets : List String)
    (fetch : List String → List PRow) (now : String) (st : Sheets) :
    CollectTrace × Sheets :=
  if adsets = [] then
    ({ fetchCalls := 0, publishCalls := 0, warnedNoAdsets := true,
       warnedNoData := false, uploadResults := [] }, st)
  else
    let insights := fetch adsets
    if insights = [] then
      ({ fetchCalls := 1, publishCalls := 0, warnedNoAdsets := false,
         warnedNoData := true, uploadResults := [] }, st)
    else
      let metrics := calculate_performance_metrics insights
      let adset_data := aggregate_adset_data metrics
      let daily_data := aggregate_daily_data metrics
      let (oa, od) := prepare_sheets_data_for_campaign adset_data daily_data now
      match oa, od with
      | none, none =>
        ({ fetchCalls := 1, publishCalls := 0, warnedNoAdsets := false,
           warnedNoData := false, uploadResults := [] }, st)
      | _, _ =>
        let (results, st1) := upload_campaign_data oa od st
        ({ fetchCalls := 1, publishCalls := results.length,
           warnedNoAdsets := false, warnedNoData := false,
           uploadResults := results }, st1)

/-! ## Auxiliary predicates and concrete inputs -/

/-- A float value that is finite or NaN (not an infinity). -/
def FinOrNan (v : FVal) : Prop := (∃ q, v = .fin q) ∨ v = .nan

/-- A performance row with the given date, ad-set identity, spend,
link clicks and efficiency score; every other metric 0. -/
def mkRow (d : ℕ) (i n : String) (sp lc eff : ℚ) : PRow :=
  { date := d, adset_id := i, adset_name := n, impressions := 0, reach := 0,
    spend := sp, ctr := 0, cpm := 0, link_clicks := lc,
    landing_page_views := 0, cost_per_link_click := 0,
    cost_per_landing_page_view := 0, reach_rate := 0,
    efficiency_score := eff }

/-- The end-to-end example of the spec: campaign with 2 ad sets and 3
days of rows, spends 100/200/300 and 50/60/70. -/
def exDays : List PRow :=
  [mkRow 1 "a1" "A" 100 0 0, mkRow 2 "a1" "A" 200 0 0, mkRow 3 "a1" "A" 300 0 0,
   mkRow 1 "b1" "B" 50 0 0, mkRow 2 "b1" "B" 60 0 0, mkRow 3 "b1" "B" 70 0 0]

/-- A single row with spend 1 and 3 link clicks: `spend / link_clicks`
is 1/3, which is not representable in 2 decimals. -/
def exThird : List PRow := [mkRow 1 "a1" "A" 1 3 0]

/-- Two rows of one ad set: spends 1 and 0, link clicks 1 and 2.  The
aggregated entity has total spend 1 over 3 total link clicks. -/
def exEntity : List PRow := [mkRow 1 "a1" "A" 1 1 0, mkRow 2 "a1" "A" 0 2 0]

/-- Four single-row entities with efficiency scores 10/20/30/40 (the
spec's quartile example). -/
def exQuartile : List PRow :=
  [mkRow 1 "a1" "A" 1 1 10, mkRow 1 "b1" "B" 2 1 20,
   mkRow 1 "c1" "C" 3 1 30, mkRow 1 "d1" "D" 4 1 40]

/-- A concrete aggregated ad-set row. -/
def exAdsetAgg : AdsetAgg :=
  { adset_id := "a1", adset_name := "A", spend := 600, impressions := 1000,
    reach := 800, link_clicks := 30, landing_page_views := 20, ctr := 3/2,
    cpm := 12 }

/-- A concrete aggregated daily row. -/
def exDailyAgg : DailyAgg :=
  { date := 1, spend := 150, impressions := 500, reach := 400,
    link_clicks := 15, landing_page_views := 10, ctr := 2, cpm := 9 }

/-- An empty frame to publish. -/
def exDfEmpty : Df := { cols := ["c"], rows := [] }

/-- A one-row frame to publish. -/
def exDfOne : Df := { cols := ["c"], rows := [[Cell.num 1]] }

/-! ## Sorting lemmas -/

theorem insertOrd_perm (le : α → α → Bool) (x : α) (l : List α) :
    (insertOrd le x l).Perm (x :: l) := by
  induction l with
  | nil => simp [insertOrd]
  | cons y ys ih =>
    by_cases h : le x y = true
    · simp [insertOrd, h]
    · simp only [insertOrd, h, Bool.false_eq_true, if_false]
      exact (ih.cons y).trans (List.Perm.swap x y ys)

theorem isort_perm (le : α → α → Bool) (l : List α) : (isort le l).Perm l := by
  induction l with
  | nil => simp [isort]
  | cons x xs ih => exact (insertOrd_perm le x (isort le xs)).trans (ih.cons x)

theorem insertOrd_pairwise (le : α → α → Bool)
    (htrans : ∀ a b c, le a b = true → le b c = true → le a c = true)
    (htot : ∀ a b, le a b = true ∨ le b a = true) (x : α) (l : List α)
    (hl : l.Pairwise (fun a b => le a b = true)) :
    (insertOrd le x l).Pairwise (fun a b => le a b = true) := by
  induction l with
  | nil => simp [insertOrd]
  | cons y ys ih =>
    rcases List.pairwise_cons.mp hl with ⟨hy, hys⟩
    by_cases h : le x y = true
    · simp only [insertOrd, h, if_true]
      refine List.pairwise_cons.mpr ⟨?_, hl⟩
      intro b hb
      rcases List.mem_cons.mp hb with rfl | hbys
      · exact h
      · exact htrans x y b h (hy b hbys)
    · simp only [insertOrd, h, Bool.false_eq_true, if_false]
      refine List.pairwise_cons.mpr ⟨?_, ih hys⟩
      intro b hb
      have hb' : b ∈ x :: ys := (insertOrd_perm le x ys).mem_iff.mp hb
      rcases List.mem_cons.mp hb' with heq | hbys
      · rw [heq]
        rcases htot x y with h1 | h2
        · exact absurd h1 h
        · exact h2
      · exact hy b hbys

theorem isort_pairwise (le : α → α → Bool)
    (htrans : ∀ a b c, le a b = true → le b c = true → le a c = true)
    (htot : ∀ a b, le a b = true ∨ le b a = true) (l : List α) :
    (isort le l).Pairwise (fun a b => le a b = true) := by
  induction l with
  | nil => simp [isort]
  | cons x xs ih => exact insertOrd_pairwise le htrans htot x _ ih

/-! ## C1: entity aggregation -/

/-- C1.  For every non-empty set of performance rows,
`aggregate_adset_data` (CampaignTracker._aggregate_adset_data) produces
exactly one output row per distinct `(adset_id, adset_name)` pair (its
key multiset is a permutation of the distinct input keys, hence
duplicate-free), each output row's spend is the sum of the input spends
of the rows of that pair, and the output is sorted in descending order
of that summed spend. -/
theorem aggregate_adset_data_spec (l : List PRow) (_hl : l ≠ []) :
    ((aggregate_adset_data l).map (fun r => (r.adset_id, r.adset_name))).Perm
        ((l.map adsetKey).dedup)
    ∧ (∀ r ∈ aggregate_adset_data l,
        r.spend = ((adsetGroup l (r.adset_id, r.adset_name)).map (·.spend)).sum)
    ∧ (aggregate_adset_data l).Pairwise (fun a b => b.spend ≤ a.spend) := by
  refine ⟨?_, ?_, ?_⟩
  · have h1 : ((adsetKeys l).map (adsetAggRow l)).map
        (fun r => (r.adset_id, r.adset_name)) = adsetKeys l := by
      rw [List.map_map]
      have h2 : ((fun r : AdsetAgg => (r.adset_id, r.adset_name)) ∘ adsetAggRow l)
          = fun k => k := by
        funext k
        simp [adsetAggRow]
      rw [h2]
      exact List.map_id _
    have h3 := (isort_perm (fun a b : AdsetAgg => decide (b.spend ≤ a.spend))
      ((adsetKeys l).map (adsetAggRow l))).map
      (fun r : AdsetAgg => (r.adset_id, r.adset_name))
    rw [h1] at h3
    exact h3
  · intro r hr
    have hr' : r ∈ (adsetKeys l).map (adsetAggRow l) :=
      (isort_perm _ _).mem_iff.mp hr
    rcases List.mem_map.mp hr' with ⟨k, _, rfl⟩
    show (adsetAggRow l k).spend = _
    have hk : ((adsetAggRow l k).adset_id, (adsetAggRow l k).adset_name) = k := by
      simp [adsetAggRow]
    rw [hk]
    rfl
  · have h4 := isort_pairwise (fun a b : AdsetAgg => decide (b.spend ≤ a.spend))
      (fun a b c hab hbc =>
        decide_eq_true (le_trans (of_decide_eq_true hbc) (of_decide_eq_true hab)))
      (fun a b => by
        rcases le_total b.spend a.spend with h | h
        · exact Or.inl (decide_eq_true h)
        · exact Or.inr (decide_eq_true h))
      ((adsetKeys l).map (adsetAggRow l))
    exact h4.imp (fun h => of_decide_eq_true h)

/-- Witness for C1 at the spec's end-to-end example input. -/
theorem aggregate_adset_data_spec_witness :
    exDays ≠ [] ∧ (aggregate_adset_data exDays).Pairwise
      (fun a b => b.spend ≤ a.spend) :=
  ⟨by simp [exDays], (aggregate_adset_data_spec exDays (by simp [exDays])).2.2⟩

/-! ## C3: daily aggregation and the end-to-end example -/

/-- C3.  For every non-empty set of performance rows,
`aggregate_daily_data` (CampaignTracker._aggregate_daily_data) produces
exactly one output row per distinct calendar date, summing spend,
impressions, reach, link clicks and landing-page views over all ad
sets of that date and averaging (to 2 decimals) `ctr` and `cpm`,
sorted in ascending date order; and on the spec's example — 2 ad sets
with 3 days of rows, spends 100/200/300 and 50/60/70 — the entity
aggregation yields 2 rows with spends 600 then 180 and the daily
aggregation yields 3 rows with spends 150, 260, 370 in ascending date
order. -/
theorem aggregate_daily_data_spec :
    (∀ l : List PRow, l ≠ [] →
      ((aggregate_daily_data l).map (·.date)).Perm ((l.map (·.date)).dedup)
      ∧ (∀ r ∈ aggregate_daily_data l,
          r.spend = ((dateGroup l r.date).map (·.spend)).sum
          ∧ r.impressions = ((dateGroup l r.date).map (·.impressions)).sum
          ∧ r.reach = ((dateGroup l r.date).map (·.reach)).sum
          ∧ r.link_clicks = ((dateGroup l r.date).map (·.link_clicks)).sum
          ∧ r.landing_page_views =
              ((dateGroup l r.date).map (·.landing_page_views)).sum
          ∧ r.ctr = round2 (colMean ((dateGroup l r.date).map (·.ctr)))
          ∧ r.cpm = round2 (colMean ((dateGroup l r.date).map (·.cpm))))
      ∧ (aggregate_daily_data l).Pairwise (fun a b => a.date ≤ b.date))
    ∧ (aggregate_adset_data exDays).map (·.spend) = [600, 180]
    ∧ (aggregate_daily_data exDays).map (fun r => (r.date, r.spend)) =
        [(1, 150), (2, 260), (3, 370)] := by
  refine ⟨fun l _ => ⟨?_, ?_, ?_⟩, ?_, ?_⟩
  · have h1 : ((dateKeys l).map (dailyAggRow l)).map (·.date) = dateKeys l := by
      rw [List.map_map]
      have h2 : ((fun r : DailyAgg => r.date) ∘ dailyAggRow l) = fun d => d := by
        funext d
        simp [dailyAggRow]
      rw [h2]
      exact List.map_id _
    have h3 := (isort_perm (fun a b : DailyAgg => decide (a.date ≤ b.date))
      ((dateKeys l).map (dailyAggRow l))).map (fun r : DailyAgg => r.date)
    rw [h1] at h3
    exact h3
  · intro r hr
    have hr' : r ∈ (dateKeys l).map (dailyAggRow l) :=
      (isort_perm _ _).mem_iff.mp hr
    rcases List.mem_map.mp hr' with ⟨d, _, rfl⟩
    exact ⟨rfl, rfl, rfl, rfl, rfl, rfl, rfl⟩
  · have h4 := isort_pairwise (fun a b : DailyAgg => decide (a.date ≤ b.date))
      (fun a b c hab hbc =>
        decide_eq_true (le_trans (of_decide_eq_true hab) (of_decide_eq_true hbc)))
      (fun a b => by
        rcases le_total a.date b.date with h | h
        · exact Or.inl (decide_eq_true h)
        · exact Or.inr (decide_eq_true h))
      ((dateKeys l).map (dailyAggRow l))
    exact h4.imp (fun h => of_decide_eq_true h)
  · simp +decide only [aggregate_adset_data, exDays, mkRow, adsetKeys, adsetKey,
      adsetAggRow, adsetGroup, isort, insertOrd, List.dedup, List.filter,
      List.map, List.sum, colMean, List.pwFilter, round2, roundHalfEven]
    norm_num
  · simp +decide only [aggregate_daily_data, exDays, mkRow, dateKeys,
      dailyAggRow, dateGroup, isort, insertOrd, List.dedup, List.filter,
      List.map, List.sum, colMean, List.pwFilter, round2, roundHalfEven]
    norm_num

/-- Witness for C3's quantified part at the example input. -/
theorem aggregate_daily_data_spec_witness :
    exDays ≠ [] ∧ (aggregate_daily_data exDays).Pairwise
      (fun a b => a.date ≤ b.date) :=
  ⟨by simp [exDays], (aggregate_daily_data_spec.1 exDays (by simp [exDays])).2.2⟩

/-! ## C2: rate-limit retry -/

/-- C2.  For the retry wrapper `safe_api_call`
(MetaAPIClient._safe_api_call with `_handle_rate_limit_error`):
(1) if the wrapped call raises rate-limit error 17 on the first `k`
attempts (`k` below the maximum retry count 3) and succeeds on attempt
`k+1`, the wrapper returns the successful result after `k+1` calls and
the total simulated wait is `60·2⁰ + 60·2¹ + … + 60·2^(k-1)`;
(2) a `FacebookRequestError` whose code is not 17 propagates
immediately, after one call and no wait; (3) so does any other
exception; (4) if error 17 recurs on every attempt the wrapper raises a
terminal failure after exhausting all 4 attempts (waiting
60+120+240 = 420). -/
theorem safe_api_call_spec :
    (∀ (α : Type) (f : ℕ → ApiResult α) (k : ℕ) (v : α), k < 3 →
      (∀ i, i < k → f i = .fbErr 17) → f k = .ok v →
      safe_api_call f =
        (.ok v, ((List.range k).map (fun i => 60 * 2 ^ i)).sum, k + 1))
    ∧ (∀ (α : Type) (f : ℕ → ApiResult α) (c : ℤ), c ≠ 17 → f 0 = .fbErr c →
      safe_api_call f = (.error (.fbRaised c), 0, 1))
    ∧ (∀ (α : Type) (f : ℕ → ApiResult α), f 0 = .otherErr →
      safe_api_call f = (.error .otherRaised, 0, 1))
    ∧ (∀ (α : Type) (f : ℕ → ApiResult α), (∀ i, i ≤ 3 → f i = .fbErr 17) →
      safe_api_call f = (.error (.fbRaised 17), 420, 4)) := by
  refine ⟨?_, ?_, ?_, ?_⟩
  · intro α f k v hk hfail hok
    interval_cases k
    · simp [safe_api_call, safeLoop, hok]
    · have h0 := hfail 0 (by norm_num)
      simp [safe_api_call, safeLoop, h0, hok, handle_rate_limit_error]
      norm_num [List.range_succ]
    · have h0 := hfail 0 (by norm_num)
      have h1 := hfail 1 (by norm_num)
      simp [safe_api_call, safeLoop, h0, h1, hok, handle_rate_limit_error]
      norm_num [List.range_succ]
  · intro α f c hc h0
    simp [safe_api_call, safeLoop, h0, handle_rate_limit_error, hc]
  · intro α f h0
    simp [safe_api_call, safeLoop, h0]
  · intro α f hall
    have h0 := hall 0 (by norm_num)
    have h1 := hall 1 (by norm_num)
    have h2 := hall 2 (by norm_num)
    have h3 := hall 3 (by norm_num)
    simp [safe_api_call, safeLoop, h0, h1, h2, h3, handle_rate_limit_error]

/-- Witness for C2: rate-limit error on the first two calls, success on
the third — result returned, waits 60 then 120. -/
theorem safe_api_call_spec_witness :
    safe_api_call (fun i => if i < 2 then ApiResult.fbErr 17 else .ok 5) =
      (.ok 5, 180, 3) := by
  have h := safe_api_call_spec.1 ℕ
    (fun i => if i < 2 then ApiResult.fbErr 17 else .ok 5) 2 5 (by norm_num)
    (fun i hi => by simp [hi]) (by norm_num)
  rw [h]
  norm_num [List.range_succ]

/-! ## C4: derived metrics guard against division by zero -/

theorem round2_zero : round2 0 = 0 := by
  norm_num [round2, roundHalfEven]

theorem finOrNan_fin (q : ℚ) : FinOrNan (.fin q) := Or.inl ⟨_, rfl⟩

theorem finOrNan_clip01 (v : FVal) : FinOrNan (clip01 v) := by
  cases v with
  | fin q => exact Or.inl ⟨_, rfl⟩
  | inf => exact Or.inl ⟨_, rfl⟩
  | ninf => exact Or.inl ⟨_, rfl⟩
  | nan => exact Or.inr rfl

theorem finOrNan_fmulC (c : ℚ) (v : FVal) (h : FinOrNan v) :
    FinOrNan (fmulC c v) := by
  rcases h with ⟨q, rfl⟩ | rfl
  · exact Or.inl ⟨_, rfl⟩
  · exact Or.inr rfl

theorem finOrNan_fadd (a b : FVal) (ha : FinOrNan a) (hb : FinOrNan b) :
    FinOrNan (fadd a b) := by
  rcases ha with ⟨q, rfl⟩ | rfl <;> rcases hb with ⟨p, rfl⟩ | rfl
  · exact Or.inl ⟨_, rfl⟩
  · exact Or.inr rfl
  · exact Or.inr rfl
  · exact Or.inr rfl

/-- The efficiency score of a row is never an infinity: every summand
is clipped into [0, 1] (or is the scalar 0), so only NaN can survive to
the coercion step. -/
theorem effRaw_finOrNan (l : List PRow) (r : PRow) : FinOrNan (effRaw l r) := by
  unfold effRaw
  dsimp only
  split_ifs <;>
    refine finOrNan_fmulC _ _ (finOrNan_fadd _ _
      (finOrNan_fadd _ _ (finOrNan_fmulC _ _ (finOrNan_clip01 _))
        (finOrNan_fmulC _ _ ?_)) (finOrNan_fmulC _ _ ?_)) <;>
    first
      | exact finOrNan_clip01 _
      | exact finOrNan_fin 0

/-- C4 (amended).  `calculate_performance_metrics` is total and its
guards prevent any division by zero: every input row yields an output
row whose `cost_per_link_click` is 0 when `link_clicks = 0` and the
2-decimal rounding of `spend / link_clicks` when `link_clicks > 0`
(the claim's unrounded quotient is amended to its rounding); likewise
for `landing_page_views` and `cost_per_landing_page_view`, and
`reach_rate = 0` when `impressions = 0`.  The efficiency score — the
only computation that can produce a non-finite intermediate — is never
an infinity, and its published value is the coercion-to-0-then-round of
the raw value, so no non-finite value reaches the output. -/
theorem calculate_performance_metrics_spec (l : List PRow) (r : PRow)
    (hr : r ∈ l) :
    metricsRow l r ∈ calculate_performance_metrics l
    ∧ (r.link_clicks = 0 → (metricsRow l r).cost_per_link_click = 0)
    ∧ (0 < r.link_clicks →
        (metricsRow l r).cost_per_link_click = round2 (r.spend / r.link_clicks))
    ∧ (r.landing_page_views = 0 →
        (metricsRow l r).cost_per_landing_page_view = 0)
    ∧ (0 < r.landing_page_views →
        (metricsRow l r).cost_per_landing_page_view =
          round2 (r.spend / r.landing_page_views))
    ∧ (r.impressions = 0 → (metricsRow l r).reach_rate = 0)
    ∧ effRaw l r ≠ .inf ∧ effRaw l r ≠ .ninf
    ∧ (metricsRow l r).efficiency_score = round2 ((effRaw l r).toRat) := by
  refine ⟨?_, ?_, ?_, ?_, ?_, ?_, ?_, ?_, rfl⟩
  · unfold calculate_performance_metrics
    rw [if_neg (List.ne_nil_of_mem hr)]
    exact List.mem_map.mpr ⟨r, hr, rfl⟩
  · intro h
    show round2 (cplcVal r) = 0
    rw [cplcVal, h]
    simpa using round2_zero
  · intro h
    show round2 (cplcVal r) = _
    rw [cplcVal, if_pos h]
  · intro h
    show round2 (cplvVal r) = 0
    rw [cplvVal, h]
    simpa using round2_zero
  · intro h
    show round2 (cplvVal r) = _
    rw [cplvVal, if_pos h]
  · intro h
    show round2 (reachRateVal r) = 0
    rw [reachRateVal, h]
    simpa using round2_zero
  · rcases effRaw_finOrNan l r with ⟨q, hq⟩ | hq <;> simp [hq]
  · rcases effRaw_finOrNan l r with ⟨q, hq⟩ | hq <;> simp [hq]

/-- Witness for C4's amended theorem at a concrete row. -/
theorem calculate_performance_metrics_spec_witness :
    (metricsRow exThird (mkRow 1 "a1" "A" 1 3 0)).cost_per_link_click =
      round2 ((mkRow 1 "a1" "A" 1 3 0).spend / (mkRow 1 "a1" "A" 1 3 0).link_clicks) :=
  (calculate_performance_metrics_spec exThird (mkRow 1 "a1" "A" 1 3 0)
    (by simp [exThird])).2.2.1 (by norm_num [mkRow])

/-- Counterexample to C4 as literally stated: for a row with spend 1
and 3 link clicks the published `cost_per_link_click` is 0.33, not
`spend / link_clicks = 1/3` — the code rounds the quotient to 2
decimals. -/
theorem calculate_performance_metrics_cex :
    (calculate_performance_metrics exThird).map (·.cost_per_link_click) =
      [33/100]
    ∧ exThird.map (fun r => r.spend / r.link_clicks) = [1/3]
    ∧ (33/100 : ℚ) ≠ 1/3 := by
  refine ⟨?_, ?_, by norm_num⟩
  · norm_num [calculate_performance_metrics, exThird, mkRow, metricsRow,
      cplcVal, round2, roundHalfEven]
  · norm_num [exThird, mkRow]

/-! ## C5: trend percentage -/

/-- C5.  `calculate_trend_percentage` returns 100 when the old value is
0 and the new is positive, 0 when both are 0, and otherwise the
2-decimal rounding of `(new − old) / old × 100`; in particular
100→150 gives 50, 0→5 gives 100 and 0→0 gives 0. -/
theorem calculate_trend_percentage_spec :
    (∀ a b : ℚ, a = 0 → 0 < b → calculate_trend_percentage a b = 100)
    ∧ (∀ a b : ℚ, a = 0 → b = 0 → calculate_trend_percentage a b = 0)
    ∧ (∀ a b : ℚ, a ≠ 0 →
        calculate_trend_percentage a b = round2 ((b - a) / a * 100))
    ∧ calculate_trend_percentage 100 150 = 50
    ∧ calculate_trend_percentage 0 5 = 100
    ∧ calculate_trend_percentage 0 0 = 0 := by
  refine ⟨?_, ?_, ?_, ?_, ?_, ?_⟩
  · intro a b ha hb
    simp [calculate_trend_percentage, ha, hb]
  · intro a b ha hb
    simp [calculate_trend_percentage, ha, hb]
  · intro a b ha
    simp [calculate_trend_percentage, ha]
  · norm_num [calculate_trend_percentage, round2, roundHalfEven]
  · norm_num [calculate_trend_percentage]
  · norm_num [calculate_trend_percentage]

/-- Witness for C5's quantified parts at concrete values. -/
theorem calculate_trend_percentage_spec_witness :
    calculate_trend_percentage 0 7 = 100 :=
  calculate_trend_percentage_spec.1 0 7 rfl (by norm_num)

/-! ## C6: the quartile comparison always fails -/

theorem colSeries_ctr (rs : List PRow) :
    colSeries rs "ctr" = some (rs.map (·.ctr)) := by
  induction rs with
  | nil => rfl
  | cons r rs ih =>
    have hc : colVal r "ctr" = some r.ctr := rfl
    simp [colSeries, hc, ih]

theorem colSeries_cpm (rs : List PRow) :
    colSeries rs "cpm" = some (rs.map (·.cpm)) := by
  induction rs with
  | nil => rfl
  | cons r rs ih =>
    have hc : colVal r "cpm" = some r.cpm := rfl
    simp [colSeries, hc, ih]

/-- Reading the `cost_per_result` column of a non-empty summary frame
raises a `KeyError`: no step of the pipeline ever produces it. -/
theorem colSeries_cost_per_result (rs : List PRow) (h : rs ≠ []) :
    colSeries rs "cost_per_result" = none := by
  cases rs with
  | nil => exact absurd rfl h
  | cons r rs =>
    have hc : colVal r "cost_per_result" = none := rfl
    simp [colSeries, hc]

/-- C6 (the code bug).  For every non-empty input frame,
`compare_adsets_performance` returns the empty result: constructing
`performance_gap` reads the nonexistent `cost_per_result` column, the
`KeyError` is caught and `{}` is returned — no quartiles are ever
reported. -/
theorem compare_adsets_performance_spec (l : List PRow) (hl : l ≠ []) :
    compare_adsets_performance l = none := by
  have hlen1 : (calculate_performance_metrics (adsetSummaryRaw l)).length
      = (adsetSummaryRaw l).length := by
    unfold calculate_performance_metrics
    split_ifs with h
    · rfl
    · exact List.length_map _ _
  have hlen : (adsetSummaryRanked l).length = (adsetKeys l).length := by
    unfold adsetSummaryRanked
    rw [(isort_perm _ _).length_eq, hlen1]
    unfold adsetSummaryRaw
    exact List.length_map _ _
  have hkeys : adsetKeys l ≠ [] := by
    unfold adsetKeys
    intro h
    exact hl (List.map_eq_nil_iff.mp ((List.dedup_eq_nil _).mp h))
  have hs : adsetSummaryRanked l ≠ [] := by
    intro h
    exact hkeys (List.length_eq_zero.mp (by rw [← hlen, h, List.length_nil]))
  have htop : topPerformers (adsetSummaryRanked l) ≠ [] := by
    unfold topPerformers
    intro h
    rcases List.take_eq_nil_iff.mp h with h1 | h1
    · simp at h1
    · exact hs h1
  have hgap : performanceGap (topPerformers (adsetSummaryRanked l))
      (bottomPerformers (adsetSummaryRanked l)) = none := by
    simp [performanceGap, meanCol, colSeries_ctr, colSeries_cpm,
      colSeries_cost_per_result _ htop]
  unfold compare_adsets_performance
  rw [if_neg hl]
  simp only [hgap]

/-- Witness/evaluation for C6 at the spec's failing input: four
entities with efficiency scores 10/20/30/40 — the claimed quartile
report is never produced. -/
theorem compare_adsets_performance_spec_witness :
    compare_adsets_performance exQuartile = none :=
  compare_adsets_performance_spec exQuartile (by simp [exQuartile])

/-! ## C7: metrics re-derived on aggregated rows -/

/-- C7 (amended).  Every row of the ranked ad-set summary (lines 89-104
of src/data_processor.py) carries the group's summed spend and summed
link clicks, and its `cost_per_link_click` is re-derived from those
sums — it equals the 2-decimal rounding of
(total spend) / (total link clicks) whenever the latter is positive
(the claim's unrounded quotient is amended to its rounding) — rather
than an average of the per-row derived values. -/
theorem adsetSummaryRanked_spec (l : List PRow) (r : PRow)
    (hr : r ∈ adsetSummaryRanked l) :
    r.spend = ((adsetGroup l (r.adset_id, r.adset_name)).map (·.spend)).sum
    ∧ r.link_clicks =
        ((adsetGroup l (r.adset_id, r.adset_name)).map (·.link_clicks)).sum
    ∧ (0 < r.link_clicks →
        r.cost_per_link_click = round2 (r.spend / r.link_clicks)) := by
  have hr1 : r ∈ calculate_performance_metrics (adsetSummaryRaw l) :=
    (isort_perm _ _).mem_iff.mp hr
  unfold calculate_performance_metrics at hr1
  by_cases hraw : adsetSummaryRaw l = []
  · rw [if_pos hraw, hraw] at hr1
    exact absurd hr1 (List.not_mem_nil r)
  · rw [if_neg hraw] at hr1
    rcases List.mem_map.mp hr1 with ⟨g, hg, rfl⟩
    unfold adsetSummaryRaw at hg
    rcases List.mem_map.mp hg with ⟨k, _, rfl⟩
    refine ⟨rfl, rfl, ?_⟩
    intro h
    have h' : 0 < (adsetSummaryRawRow l k).link_clicks := h
    show round2 (cplcVal (adsetSummaryRawRow l k)) = _
    rw [cplcVal, if_pos h']
    rfl

theorem adsetKeys_exEntity : adsetKeys exEntity = [("a1", "A")] := by
  simp +decide [adsetKeys, adsetKey, exEntity, mkRow, List.dedup]

theorem adsetSummaryRanked_exEntity :
    adsetSummaryRanked exEntity =
      [metricsRow (adsetSummaryRaw exEntity)
        (adsetSummaryRawRow exEntity ("a1", "A"))] := by
  have hraw : adsetSummaryRaw exEntity =
      [adsetSummaryRawRow exEntity ("a1", "A")] := by
    rw [adsetSummaryRaw, adsetKeys_exEntity]
    rfl
  unfold adsetSummaryRanked
  rw [hraw]
  rw [calculate_performance_metrics, if_neg (by simp)]
  simp [isort, insertOrd]

/-- Witness for C7's amended theorem: the single aggregated entity of
the two-row example carries the summed spend of its group. -/
theorem adsetSummaryRanked_spec_witness :
    (metricsRow (adsetSummaryRaw exEntity)
        (adsetSummaryRawRow exEntity ("a1", "A"))).spend =
      ((adsetGroup exEntity ("a1", "A")).map (·.spend)).sum := by
  have hmem : metricsRow (adsetSummaryRaw exEntity)
      (adsetSummaryRawRow exEntity ("a1", "A")) ∈ adsetSummaryRanked exEntity := by
    rw [adsetSummaryRanked_exEntity]
    exact List.mem_singleton.mpr rfl
  exact (adsetSummaryRanked_spec exEntity _ hmem).1

/-- Counterexample to C7 as literally stated: the two-row entity with
spends 1, 0 and link clicks 1, 2 aggregates to total spend 1 over 3
total link clicks, yet the summary's `cost_per_link_click` is 0.33,
not the exact quotient 1/3 — the re-derivation rounds to 2 decimals. -/
theorem adsetSummaryRanked_cex :
    (adsetSummaryRanked exEntity).map (·.cost_per_link_click) = [33/100]
    ∧ ((adsetGroup exEntity ("a1", "A")).map (·.spend)).sum /
        ((adsetGroup exEntity ("a1", "A")).map (·.link_clicks)).sum = 1/3
    ∧ (33/100 : ℚ) ≠ 1/3 := by
  have hg : adsetGroup exEntity ("a1", "A") = exEntity := by
    simp +decide [adsetGroup, adsetKey, exEntity, mkRow, List.filter]
  have hsp : (adsetSummaryRawRow exEntity ("a1", "A")).spend = 1 := by
    simp only [adsetSummaryRawRow, hg]
    norm_num [exEntity, mkRow]
  have hlc : (adsetSummaryRawRow exEntity ("a1", "A")).link_clicks = 3 := by
    simp only [adsetSummaryRawRow, hg]
    norm_num [exEntity, mkRow]
  refine ⟨?_, ?_, by norm_num⟩
  · rw [adsetSummaryRanked_exEntity]
    show [round2 (cplcVal (adsetSummaryRawRow exEntity ("a1", "A")))] = _
    rw [cplcVal, hsp, hlc]
    norm_num [round2, roundHalfEven]
  · rw [hg]
    norm_num [exEntity, mkRow]

/-! ## C8: the publish contract -/

/-- C8.  `upload_dataframe_to_sheet` called on an empty table performs
no remote access at all — the sheet state is returned unchanged, even
with `clear_existing = true` — and reports failure; and
`upload_campaign_data` aggregates the per-sheet booleans so that the
ad-set sheet's failure does not prevent the daily sheet's upload. -/
theorem upload_dataframe_to_sheet_spec :
    (∀ (df : Df) (name : String) (hdr clr : Bool) (st : Sheets),
      df.rows = [] → upload_dataframe_to_sheet df name hdr clr st = (false, st))
    ∧ (∀ (dA dB : Df) (st : Sheets), dA.rows = [] → dB.rows ≠ [] →
      (upload_campaign_data (some dA) (some dB) st).1 =
        [("adset_performance", false), ("daily_trend", true)]
      ∧ (upload_campaign_data (some dA) (some dB) st).2 =
        (upload_dataframe_to_sheet dB "일별 데이터" true true st).2) := by
  constructor
  · intro df name hdr clr st h
    simp [upload_dataframe_to_sheet, h]
  · intro dA dB st hA hB
    have h1 : upload_dataframe_to_sheet dA "광고 세트별 데이터" true true st
        = (false, st) := by
      simp [upload_dataframe_to_sheet, hA]
    obtain ⟨b2, st2, hu⟩ : ∃ b2 st2,
        upload_dataframe_to_sheet dB "일별 데이터" true true st = (b2, st2) :=
      ⟨_, _, rfl⟩
    have hb2 : b2 = true := by
      rw [upload_dataframe_to_sheet, if_neg hB] at hu
      have h3 := congrArg Prod.fst hu
      exact h3.symm
    constructor
    · simp [upload_campaign_data, h1, hu, hb2]
    · simp [upload_campaign_data, h1, hu]

/-- Witness for C8 at concrete frames: the empty frame fails and leaves
the (empty) sheet state untouched; the one-row frame still uploads. -/
theorem upload_dataframe_to_sheet_spec_witness :
    upload_dataframe_to_sheet exDfEmpty "광고 세트별 데이터" true true []
      = (false, [])
    ∧ (upload_campaign_data (some exDfEmpty) (some exDfOne) []).1 =
        [("adset_performance", false), ("daily_trend", true)] :=
  ⟨upload_dataframe_to_sheet_spec.1 exDfEmpty _ true true [] rfl,
   (upload_dataframe_to_sheet_spec.2 exDfEmpty exDfOne [] rfl
      (by simp [exDfOne])).1⟩

/-! ## C9: empty ad-set list short-circuits the collection run -/

/-- C9.  When the ad-set listing is empty, `collect_and_update_data`
returns early with the "no ad sets" warning, performs zero insight
fetches and zero publish calls, leaves the sheet state untouched, and
(being a total function whose branches all return a trace) raises no
error. -/
theorem collect_and_update_data_spec (fetch : List String → List PRow)
    (now : String) (st : Sheets) :
    collect_and_update_data [] fetch now st =
      ({ fetchCalls := 0, publishCalls := 0, warnedNoAdsets := true,
         warnedNoData := false, uploadResults := [] }, st) := rfl

/-! ## C10: sheet preparation divides CTR by 100 -/

/-- C10.  For non-empty aggregates, `prepare_sheets_data_for_campaign`
produces for each input row a published row whose CTR cell is the
aggregated `ctr` divided by 100 — in both the ad-set table and the
daily table — while every other metric cell carries the aggregated
value unchanged (the ad-set table appends the update timestamp, the
daily table leads with the formatted date). -/
theorem prepare_sheets_data_spec (a : List AdsetAgg) (d : List DailyAgg)
    (now : String) (ha : a ≠ []) (hd : d ≠ []) :
    (prepare_sheets_data_for_campaign a d now).1 =
      some { cols := ["광고세트명", "지출금액", "노출", "도달", "링크클릭",
               "랜딩페이지조회", "CTR(%)", "CPM", "업데이트 일시"],
             rows := a.map (fun r =>
               [.str r.adset_name, .num r.spend, .num r.impressions,
                .num r.reach, .num r.link_clicks, .num r.landing_page_views,
                .num (r.ctr / 100), .num r.cpm, .str now]) }
    ∧ (prepare_sheets_data_for_campaign a d now).2 =
      some { cols := ["날짜", "지출금액", "노출", "도달", "링크클릭",
               "랜딩페이지조회", "CTR(%)", "CPM"],
             rows := d.map (fun r =>
               [.str (dateStr r.date), .num r.spend, .num r.impressions,
                .num r.reach, .num r.link_clicks, .num r.landing_page_views,
                .num (r.ctr / 100), .num r.cpm]) } := by
  constructor
  · simp only [prepare_sheets_data_for_campaign, if_neg ha]
    congr 1
    unfold recsToDf selectCols divCtrBy100
    congr 1
    rw [List.map_map, List.map_map, List.map_map]
    apply List.map_congr_left
    intro r _
    rfl
  · simp only [prepare_sheets_data_for_campaign, if_neg hd]
    congr 1
    unfold recsToDf selectCols divCtrBy100
    congr 1
    rw [List.map_map, List.map_map, List.map_map]
    apply List.map_congr_left
    intro r _
    rfl

/-- Witness for C10 at one-row aggregates. -/
theorem prepare_sheets_data_spec_witness :
    (prepare_sheets_data_for_campaign [exAdsetAgg] [exDailyAgg] "now").1 =
      some { cols := ["광고세트명", "지출금액", "노출", "도달", "링크클릭",
               "랜딩페이지조회", "CTR(%)", "CPM", "업데이트 일시"],
             rows := [exAdsetAgg].map (fun r =>
               [.str r.adset_name, .num r.spend, .num r.impressions,
                .num r.reach, .num r.link_clicks, .num r.landing_page_views,
                .num (r.ctr / 100), .num r.cpm, .str "now"]) } :=
  (prepare_sheets_data_spec [exAdsetAgg] [exDailyAgg] "now"
    (by simp) (by simp)).1

end MetaDash
